import Mathlib

/-!
Shallow embedding of the browser-side form handler in
src/static/script.js of raddoc96/radiology-report-generator.

The script binds two event handlers:

  * a submit handler on the report form, which hides previous
    result/error regions, shows the loading indicator, disables the
    submit button, clears previous texts, issues one POST to
    /generate_report with a JSON body of the two field values, and then
    renders either the returned report or an error message, with a
    finally-block that hides the loading indicator and re-enables the
    button on every exit path;

  * a click handler on the copy button, which writes the displayed
    report text to the clipboard, transiently relabels the button to
    "Copied!" for 2000 ms on success, and alerts plus logs on failure.

The embedding models the mutable DOM state touched by the script as a
record, and the submit handler as the trace of states after each
primitive DOM mutation, so that both final-state and intermediate-state
(temporal/invariant) claims can be settled.  JavaScript truthiness of
string-valued JSON fields (used by the script in `if (data.report)`,
`else if (data.error)` and `errorData.error || errorMsg`) is modelled
by `truthy`: a string field is truthy iff it is present and non-empty.
-/

/-- The DOM state touched by the submit handler: the visibility of the
three display regions, the disabled flag of the submit button, and the
text contents of the report output and error message elements. -/
structure UIState where
  resultVisible : Bool
  errorVisible : Bool
  loadingVisible : Bool
  buttonDisabled : Bool
  reportText : String
  errorText : String
deriving DecidableEq

/-- A JSON response body as consumed by the script: the optional
string-valued fields `report` and `error`.  A missing field is `none`. -/
structure JsonBody where
  report : Option String
  error : Option String
deriving DecidableEq

/-- A resolved fetch response: its numeric HTTP status, and the result
of awaiting `response.json()` — either the parsed body, or the message
of the exception thrown when the body is not valid JSON. -/
structure FetchResponse where
  status : Nat
  jsonBody : Except String JsonBody

/-- The outcome of the `fetch` call: either it resolves with a
response, or it rejects (network-level failure) with an error whose
message is the given string. -/
inductive FetchOutcome where
  | resolved (resp : FetchResponse)
  | rejected (msg : String)

/-- The `response.ok` flag of the fetch API: true iff the status is in
the 2xx range (200 to 299 inclusive). -/
def okStatus (status : Nat) : Bool :=
  200 ≤ status && status < 300

/-- JavaScript truthiness of an optional string-valued JSON field: an
absent field (`undefined`) is falsy, and a present string is truthy iff
it is non-empty. -/
def truthy : Option String → Bool
  | none => false
  | some s => s != ""

/-- The script's `errorData.error || errorMsg`: the field value when it
is truthy, else the fallback. -/
def orDefault (v : Option String) (fallback : String) : String :=
  match v with
  | some s => if s != "" then s else fallback
  | none => fallback

/-- The error message computed on a non-ok response (lines 35-43 of the
script): start from the generic status message, then try to parse the
body as JSON and take its truthy `error` field, ignoring parse
failures. -/
def nonOkErrorMsg (resp : FetchResponse) : String :=
  let base := "HTTP error! Status: " ++ toString resp.status
  match resp.jsonBody with
  | .ok data => orDefault data.error base
  | .error _ => base

/-- How the try block of the submit handler ends: either it completes
normally having displayed the given report text, or an exception with
the given message reaches the catch block. -/
inductive TryResult where
  | completed (reportText : String)
  | thrown (msg : String)

/-- The control flow of the try block (lines 26-57 of the script): a
rejected fetch propagates; a non-ok response throws the message of
`nonOkErrorMsg`; on an ok response, a JSON parse failure propagates the
parse error; otherwise a truthy `report` field completes the success
path, else a truthy `error` field is thrown, else the generic
unexpected-response message is thrown. -/
def runTry (o : FetchOutcome) : TryResult :=
  match o with
  | .rejected msg => .thrown msg
  | .resolved resp =>
    if !okStatus resp.status then
      .thrown (nonOkErrorMsg resp)
    else
      match resp.jsonBody with
      | .error parseMsg => .thrown parseMsg
      | .ok data =>
        if truthy data.report then .completed (data.report.getD "")
        else if truthy data.error then .thrown (data.error.getD "")
        else .thrown "Received an unexpected response from the server."

/-- The state at which the fetch is dispatched: the state after the six
mutations at the top of the submit handler (hide result, hide error,
show loading, disable button, clear report text, clear error text).
Between dispatching the fetch and the resolution of the response the
handler performs no further DOM mutation, so this is also the state at
every point while the request is in flight. -/
def dispatchState (s0 : UIState) : UIState :=
  { s0 with resultVisible := false, errorVisible := false,
            loadingVisible := true, buttonDisabled := true,
            reportText := "", errorText := "" }

/-- The states of the submit handler while the request is in flight:
no mutation happens between the fetch call and its resolution, so the
in-flight state is exactly the dispatch state. -/
def inFlightStates (s0 : UIState) : List UIState :=
  [dispatchState s0]

/-- The trace of DOM states of one run of the submit handler, starting
from state s0, once the fetch has outcome o: the initial state, the
state after each of the six prelude mutations, the state after each
mutation of the success branch (set report text, show result area) or
of the catch block (set error message, show error area), and the state
after each mutation of the finally block (hide loading, re-enable
button). -/
def handleSubmitTrace (s0 : UIState) (o : FetchOutcome) : List UIState :=
  let s1 := { s0 with resultVisible := false }
  let s2 := { s1 with errorVisible := false }
  let s3 := { s2 with loadingVisible := true }
  let s4 := { s3 with buttonDisabled := true }
  let s5 := { s4 with reportText := "" }
  let s6 := { s5 with errorText := "" }
  let bodyStates :=
    match runTry o with
    | .completed r =>
        let t1 := { s6 with reportText := r }
        let t2 := { t1 with resultVisible := true }
        [t1, t2]
    | .thrown msg =>
        let t1 := { s6 with errorText := "Failed to generate report: " ++ msg }
        let t2 := { t1 with errorVisible := true }
        [t1, t2]
  let afterBody := bodyStates.getLastD s6
  let f1 := { afterBody with loadingVisible := false }
  let f2 := { f1 with buttonDisabled := false }
  s0 :: [s1, s2, s3, s4, s5, s6] ++ bodyStates ++ [f1, f2]

/-- The DOM state when the submit handler has run to completion. -/
def finalState (s0 : UIState) (o : FetchOutcome) : UIState :=
  (handleSubmitTrace s0 o).getLastD s0

/-- Characterization of the final state purely in terms of the try
block's result (proved equal to `finalState` below): the prelude
clears every field the handler touches, so the final state does not
depend on the initial state. -/
def finalOf (o : FetchOutcome) : UIState :=
  match runTry o with
  | .completed r =>
      { resultVisible := true, errorVisible := false,
        loadingVisible := false, buttonDisabled := false,
        reportText := r, errorText := "" }
  | .thrown msg =>
      { resultVisible := false, errorVisible := true,
        loadingVisible := false, buttonDisabled := false,
        reportText := "", errorText := "Failed to generate report: " ++ msg }

/-- The HTTP request the submit handler issues: method, path, the
Content-Type header, and the fields of the object serialized into the
JSON body. -/
structure HttpRequest where
  method : String
  path : String
  contentType : String
  bodyFields : List (String × String)
deriving DecidableEq

/-- The request built by the fetch call (lines 27-32 of the script):
one POST to /generate_report with header Content-Type:
application/json and body JSON.stringify of the object with exactly the
keys findings and template bound to the two field values. -/
def buildRequest (findings template : String) : HttpRequest :=
  { method := "POST", path := "/generate_report",
    contentType := "application/json",
    bodyFields := [("findings", findings), ("template", template)] }

/-- One full run of the submit handler: the (single) request it issues
for the two field values read from the form, and the trace of DOM
states it goes through given the fetch outcome. -/
structure SubmitRun where
  requests : List HttpRequest
  trace : List UIState

/-- The submit handler: reads the two field values, issues exactly one
request, and mutates the DOM along `handleSubmitTrace`. -/
def handleSubmit (findings template : String) (s0 : UIState) (o : FetchOutcome) : SubmitRun :=
  { requests := [buildRequest findings template],
    trace := handleSubmitTrace s0 o }

/-- The outcome of the clipboard write attempted by the copy handler:
the promise either fulfills or rejects with an error whose message is
the given string. -/
inductive ClipboardResult where
  | succeeded
  | failed (err : String)
deriving DecidableEq

/-- The observable effects of one run of the copy-button click handler:
what was written to the clipboard (if anything), the button label right
after the handler's promise settles, the delay of the scheduled label
restore (if one was scheduled) and the label after that timer fires,
the blocking alert message (if any), and the logged error (if any). -/
structure CopyRun where
  clipboardWrite : Option String
  labelNow : String
  restoreDelay : Option Nat
  labelAfterDelay : String
  alertMsg : Option String
  loggedErr : Option String
deriving DecidableEq

/-- The copy-button click handler (lines 69-81 of the script): write
the displayed report text to the clipboard; on fulfillment set the
button label to "Copied!" and schedule its restore to "Copy Report to
Clipboard" after 2000 ms; on rejection log the error and show a
blocking alert, leaving the label unchanged. -/
def handleCopy (reportText currentLabel : String) (res : ClipboardResult) : CopyRun :=
  match res with
  | .succeeded =>
      { clipboardWrite := some reportText,
        labelNow := "Copied!",
        restoreDelay := some 2000,
        labelAfterDelay := "Copy Report to Clipboard",
        alertMsg := none,
        loggedErr := none }
  | .failed err =>
      { clipboardWrite := none,
        labelNow := currentLabel,
        restoreDelay := none,
        labelAfterDelay := currentLabel,
        alertMsg := some "Failed to copy report. Please copy manually.",
        loggedErr := some err }

/-- Number of visible display regions among loading, result,
error. -/
def visCount (s : UIState) : Nat :=
  (if s.loadingVisible then 1 else 0) +
  (if s.resultVisible then 1 else 0) +
  (if s.errorVisible then 1 else 0)

/-- The three-state presentation invariant: at most one of the three
display regions is visible. -/
def atMostOne (s : UIState) : Prop :=
  visCount s ≤ 1

/-- A fresh page state: nothing visible, button enabled, both text
surfaces empty. -/
def initState : UIState :=
  { resultVisible := false, errorVisible := false,
    loadingVisible := false, buttonDisabled := false,
    reportText := "", errorText := "" }

/-- The final state of a run of the submit handler depends only on the
fetch outcome, not on the initial DOM state. -/
theorem finalState_eq_finalOf (s0 : UIState) (o : FetchOutcome) :
    finalState s0 o = finalOf o := by
  cases h : runTry o <;>
    simp [finalState, handleSubmitTrace, finalOf, h]

/-- Claim C1, counterexample: a 2xx response whose JSON body contains
the field report bound to the empty string is a body containing a
report field, yet the handler does not treat it as success — the empty
string is falsy in the script's `if (data.report)` test, so the run
falls through to the unexpected-response failure path: the result
region stays hidden and the error region becomes visible. -/
theorem c1_report_field_counterexample :
    (finalState initState (.resolved ⟨200, .ok ⟨some "", none⟩⟩)).resultVisible = false ∧
    (finalState initState (.resolved ⟨200, .ok ⟨some "", none⟩⟩)).errorVisible = true :=
  ⟨rfl, rfl⟩

/-- Claim C1 (amended: the report field must be non-empty, since the
script tests it for JavaScript truthiness): for every submission whose
fetch resolves with a 2xx status and a JSON body containing a
non-empty report field, the handler treats it as success — the report
string is written verbatim into the report output, the result region
is made visible, and the error region stays hidden. -/
theorem c1_report_success (s0 : UIState) (status : Nat) (data : JsonBody) (r : String)
    (hok : okStatus status = true) (hr : data.report = some r) (hne : r ≠ "") :
    (finalState s0 (.resolved ⟨status, .ok data⟩)).reportText = r ∧
    (finalState s0 (.resolved ⟨status, .ok data⟩)).resultVisible = true ∧
    (finalState s0 (.resolved ⟨status, .ok data⟩)).errorVisible = false := by
  have hrun : runTry (.resolved ⟨status, .ok data⟩) = .completed r := by
    simp [runTry, hok, truthy, hr, hne]
  simp [finalState_eq_finalOf, finalOf, hrun]

/-- Witness for c1_report_success at a concrete input. -/
theorem c1_report_success_witness :
    (finalState initState (.resolved ⟨200, .ok ⟨some "X", none⟩⟩)).reportText = "X" ∧
    (finalState initState (.resolved ⟨200, .ok ⟨some "X", none⟩⟩)).resultVisible = true ∧
    (finalState initState (.resolved ⟨200, .ok ⟨some "X", none⟩⟩)).errorVisible = false :=
  c1_report_success initState 200 ⟨some "X", none⟩ "X" (by decide) rfl (by decide)

/-- Claim C2, counterexample: on a 400 response whose JSON body has an
error field bound to the empty string, the claim as stated predicts the
error region shows the prefix followed by that (empty) value, i.e.
exactly "Failed to generate report: "; the script instead falls back to
the status message because the empty string is falsy in
`errorData.error || errorMsg`. -/
theorem c2_nonok_counterexample :
    (finalState initState (.resolved ⟨400, .ok ⟨none, some ""⟩⟩)).errorText =
      "Failed to generate report: HTTP error! Status: 400" ∧
    (finalState initState (.resolved ⟨400, .ok ⟨none, some ""⟩⟩)).errorText ≠
      "Failed to generate report: " :=
  ⟨rfl, by decide⟩

/-- Claim C2 (amended: the error field must be non-empty for its value
to be used; an empty error field falls back to the status message):
for every submission whose fetch resolves with a non-2xx status, the
handler treats it as failure; if the body parses as JSON with a
non-empty error field the error region shows the prefix followed by
that value, and otherwise (body not JSON, or error field absent or
empty) it shows the prefix followed by the generic status message. -/
theorem c2_nonok_failure (s0 : UIState) (resp : FetchResponse)
    (hok : okStatus resp.status = false) :
    (∀ data e, resp.jsonBody = Except.ok data → data.error = some e → e ≠ "" →
      (finalState s0 (.resolved resp)).errorText = "Failed to generate report: " ++ e) ∧
    ((∀ data, resp.jsonBody = Except.ok data → truthy data.error = false) →
      (finalState s0 (.resolved resp)).errorText =
        "Failed to generate report: HTTP error! Status: " ++ toString resp.status) ∧
    (finalState s0 (.resolved resp)).errorVisible = true := by
  have hrun : runTry (.resolved resp) = .thrown (nonOkErrorMsg resp) := by
    simp [runTry, hok]
  refine ⟨?_, ?_, ?_⟩
  · intro data e hb he hne
    have hmsg : nonOkErrorMsg resp = e := by
      simp [nonOkErrorMsg, hb, orDefault, he, hne]
    simp [finalState_eq_finalOf, finalOf, hrun, hmsg]
  · intro hfalsy
    have hmsg : nonOkErrorMsg resp = "HTTP error! Status: " ++ toString resp.status := by
      cases hb : resp.jsonBody with
      | ok data =>
        have hf := hfalsy data hb
        cases hd : data.error with
        | none => simp [nonOkErrorMsg, hb, orDefault, hd]
        | some s =>
          rw [hd] at hf
          simp [truthy] at hf
          simp [nonOkErrorMsg, hb, orDefault, hd, hf]
      | error m => simp [nonOkErrorMsg, hb]
    have hfold : ("Failed to generate report: " ++ "HTTP error! Status: " : String) =
        "Failed to generate report: HTTP error! Status: " := by decide
    rw [finalState_eq_finalOf]
    simp only [finalOf, hrun, hmsg]
    rw [← String.append_assoc, hfold]
  · simp [finalState_eq_finalOf, finalOf, hrun]

/-- Witness for c2_nonok_failure at a concrete input. -/
theorem c2_nonok_failure_witness :
    (finalState initState (.resolved ⟨400, .ok ⟨none, some "boom"⟩⟩)).errorText =
      "Failed to generate report: boom" ∧
    (finalState initState (.resolved ⟨500, .error "bad json"⟩)).errorText =
      "Failed to generate report: HTTP error! Status: 500" :=
  ⟨(c2_nonok_failure initState ⟨400, .ok ⟨none, some "boom"⟩⟩ (by decide)).1
      ⟨none, some "boom"⟩ "boom" rfl rfl (by decide),
   (c2_nonok_failure initState ⟨500, .error "bad json"⟩ (by decide)).2.1
      (by intro data hb; cases hb)⟩

/-- Claim C3: for every submission, on every exit path, the final state
has the loading indicator hidden and the submit button re-enabled; and
at every point while the request is in flight the submit button is
disabled (the handler performs no mutation between dispatching the
fetch and its resolution, so the in-flight state is the dispatch
state). -/
theorem c3_finalization (s0 : UIState) (o : FetchOutcome) :
    (finalState s0 o).loadingVisible = false ∧
    (finalState s0 o).buttonDisabled = false ∧
    ∀ s ∈ inFlightStates s0, s.buttonDisabled = true := by
  refine ⟨?_, ?_, ?_⟩
  · cases h : runTry o <;> simp [finalState_eq_finalOf, finalOf, h]
  · cases h : runTry o <;> simp [finalState_eq_finalOf, finalOf, h]
  · intro s hs
    simp [inFlightStates] at hs
    subst hs
    rfl

/-- Witness for c3_finalization at a concrete input. -/
theorem c3_finalization_witness :
    (finalState initState (FetchOutcome.rejected "network down")).loadingVisible = false ∧
    (finalState initState (FetchOutcome.rejected "network down")).buttonDisabled = false ∧
    (dispatchState initState).buttonDisabled = true :=
  ⟨(c3_finalization initState (FetchOutcome.rejected "network down")).1,
   (c3_finalization initState (FetchOutcome.rejected "network down")).2.1,
   (c3_finalization initState (FetchOutcome.rejected "network down")).2.2
      (dispatchState initState) (by simp [inFlightStates])⟩

/-- Claim C4, counterexample: on a successful run the script shows the
result area (line 49) before the finally block hides the loading
indicator (line 63), so the trace reaches a state in which the loading
indicator and the result area are visible simultaneously — the
at-most-one-region invariant does not hold at every reachable state. -/
theorem c4_invariant_counterexample :
    ∃ s ∈ handleSubmitTrace initState (FetchOutcome.resolved ⟨200, .ok ⟨some "R", none⟩⟩),
      1 < visCount s := by
  decide

/-- Claim C4 (amended: at most one of the result and error regions is
visible at every reachable state, and at most one of the three regions
is visible while the request is in flight and when the handler
completes; transiently, between showing the outcome region and the
finally block hiding the loading indicator, the loading indicator
overlaps the newly shown region). -/
theorem c4_display_invariant (s0 : UIState) (o : FetchOutcome)
    (h0 : ¬(s0.resultVisible = true ∧ s0.errorVisible = true)) :
    (∀ s ∈ handleSubmitTrace s0 o, ¬(s.resultVisible = true ∧ s.errorVisible = true)) ∧
    (∀ s ∈ inFlightStates s0, atMostOne s) ∧
    atMostOne (finalState s0 o) := by
  refine ⟨?_, ?_, ?_⟩
  · intro s hs
    cases h : runTry o <;>
      · simp [handleSubmitTrace, h] at hs
        rcases hs with rfl | rfl | rfl | rfl | rfl | rfl | rfl | rfl | rfl | rfl | rfl <;>
          simp_all
  · intro s hs
    simp [inFlightStates] at hs
    subst hs
    simp [atMostOne, visCount, dispatchState]
  · cases h : runTry o <;>
      simp [finalState_eq_finalOf, finalOf, h, atMostOne, visCount]

/-- Witness for c4_display_invariant at a concrete input. -/
theorem c4_display_invariant_witness :
    atMostOne (dispatchState initState) ∧
    atMostOne (finalState initState (FetchOutcome.rejected "down")) ∧
    ¬((dispatchState initState).resultVisible = true ∧
      (dispatchState initState).errorVisible = true) :=
  ⟨(c4_display_invariant initState (FetchOutcome.rejected "down") (by decide)).2.1
      (dispatchState initState) (by simp [inFlightStates]),
   (c4_display_invariant initState (FetchOutcome.rejected "down") (by decide)).2.2,
   (c4_display_invariant initState (FetchOutcome.rejected "down") (by decide)).1
      (dispatchState initState) (by decide)⟩

/-- Claim C5, counterexample: a 2xx response whose JSON body contains
the field error bound to the empty string (and no report field) is a
body containing an error field, yet the error region does not show the
prefix followed by that (empty) value — the empty string is falsy in
the script's `else if (data.error)` test, so the generic
unexpected-response message is shown instead. -/
theorem c5_app_error_counterexample :
    (finalState initState (.resolved ⟨200, .ok ⟨none, some ""⟩⟩)).errorText =
      "Failed to generate report: Received an unexpected response from the server." ∧
    (finalState initState (.resolved ⟨200, .ok ⟨none, some ""⟩⟩)).errorText ≠
      "Failed to generate report: " :=
  ⟨rfl, by decide⟩

/-- Claim C5 (amended: the error field must be non-empty, since the
script tests it for JavaScript truthiness): for every submission whose
fetch resolves with a 2xx status and a JSON body containing a
non-empty error field and no report field, the handler treats it as
failure and the error region becomes visible showing the prefix
followed by that error string taken verbatim from the response. -/
theorem c5_app_error (s0 : UIState) (status : Nat) (e : String)
    (hok : okStatus status = true) (hne : e ≠ "") :
    (finalState s0 (.resolved ⟨status, .ok ⟨none, some e⟩⟩)).errorVisible = true ∧
    (finalState s0 (.resolved ⟨status, .ok ⟨none, some e⟩⟩)).errorText =
      "Failed to generate report: " ++ e ∧
    (finalState s0 (.resolved ⟨status, .ok ⟨none, some e⟩⟩)).resultVisible = false := by
  have hrun : runTry (.resolved ⟨status, .ok ⟨none, some e⟩⟩) = .thrown e := by
    simp [runTry, hok, truthy, hne]
  simp [finalState_eq_finalOf, finalOf, hrun]

/-- Witness for c5_app_error at a concrete input. -/
theorem c5_app_error_witness :
    (finalState initState (.resolved ⟨200, .ok ⟨none, some "Y"⟩⟩)).errorVisible = true ∧
    (finalState initState (.resolved ⟨200, .ok ⟨none, some "Y"⟩⟩)).errorText =
      "Failed to generate report: Y" ∧
    (finalState initState (.resolved ⟨200, .ok ⟨none, some "Y"⟩⟩)).resultVisible = false :=
  c5_app_error initState 200 "Y" (by decide) (by decide)

/-- Claim C6: for every submission whose fetch resolves with a 2xx
status and a JSON body containing neither a report nor an error field,
the handler treats it as failure and the error region shows exactly
the generic unexpected-response message. -/
theorem c6_unexpected_shape (s0 : UIState) (status : Nat)
    (hok : okStatus status = true) :
    (finalState s0 (.resolved ⟨status, .ok ⟨none, none⟩⟩)).errorVisible = true ∧
    (finalState s0 (.resolved ⟨status, .ok ⟨none, none⟩⟩)).errorText =
      "Failed to generate report: Received an unexpected response from the server." ∧
    (finalState s0 (.resolved ⟨status, .ok ⟨none, none⟩⟩)).resultVisible = false := by
  have hrun : runTry (.resolved ⟨status, .ok ⟨none, none⟩⟩) =
      .thrown "Received an unexpected response from the server." := by
    simp [runTry, hok, truthy]
  simp [finalState_eq_finalOf, finalOf, hrun]

/-- Witness for c6_unexpected_shape at a concrete input. -/
theorem c6_unexpected_shape_witness :
    (finalState initState (.resolved ⟨200, .ok ⟨none, none⟩⟩)).errorVisible = true ∧
    (finalState initState (.resolved ⟨200, .ok ⟨none, none⟩⟩)).errorText =
      "Failed to generate report: Received an unexpected response from the server." ∧
    (finalState initState (.resolved ⟨200, .ok ⟨none, none⟩⟩)).resultVisible = false :=
  c6_unexpected_shape initState 200 (by decide)

/-- Claim C7: for every pair of string values read from the two input
fields, one submission issues exactly one POST request to the fixed
path /generate_report with header Content-Type: application/json and a
JSON body object containing exactly the two keys findings and template
bound to those values, regardless of the initial DOM state and of the
fetch outcome. -/
theorem c7_single_request (findings template : String) (s0 : UIState) (o : FetchOutcome) :
    (handleSubmit findings template s0 o).requests = [buildRequest findings template] ∧
    (handleSubmit findings template s0 o).requests.length = 1 ∧
    (buildRequest findings template).method = "POST" ∧
    (buildRequest findings template).path = "/generate_report" ∧
    (buildRequest findings template).contentType = "application/json" ∧
    (buildRequest findings template).bodyFields =
      [("findings", findings), ("template", template)] :=
  ⟨rfl, rfl, rfl, rfl, rfl, rfl⟩

/-- Claim C8: for every click of the copy control while the report
output holds text X, if the clipboard write succeeds then X is written
to the clipboard, the label is set to "Copied!", and a restore of the
label to "Copy Report to Clipboard" is scheduled after 2000 time
units; if the clipboard write fails then a blocking alert instructing
manual copying is shown and the error is logged, with the label
unchanged (both now and later, since no restore timer is scheduled). -/
theorem c8_copy_behavior (X currentLabel err : String) :
    (handleCopy X currentLabel ClipboardResult.succeeded).clipboardWrite = some X ∧
    (handleCopy X currentLabel ClipboardResult.succeeded).labelNow = "Copied!" ∧
    (handleCopy X currentLabel ClipboardResult.succeeded).restoreDelay = some 2000 ∧
    (handleCopy X currentLabel ClipboardResult.succeeded).labelAfterDelay =
      "Copy Report to Clipboard" ∧
    (handleCopy X currentLabel ClipboardResult.succeeded).alertMsg = none ∧
    (handleCopy X currentLabel (ClipboardResult.failed err)).alertMsg =
      some "Failed to copy report. Please copy manually." ∧
    (handleCopy X currentLabel (ClipboardResult.failed err)).loggedErr = some err ∧
    (handleCopy X currentLabel (ClipboardResult.failed err)).labelNow = currentLabel ∧
    (handleCopy X currentLabel (ClipboardResult.failed err)).labelAfterDelay = currentLabel ∧
    (handleCopy X currentLabel (ClipboardResult.failed err)).restoreDelay = none :=
  ⟨rfl, rfl, rfl, rfl, rfl, rfl, rfl, rfl, rfl, rfl⟩

/-- Claim C9: for every two submissions run to completion in sequence,
the final UI state depends only on the second submission's fetch
outcome — it equals the final state the second submission would
produce from any initial state, and is fully determined by the second
outcome alone — and only the latest result or error is visible (never
both), so no report or error text produced by the first submission
remains in any display region. -/
theorem c9_latest_wins (s0 : UIState) (o1 o2 : FetchOutcome) :
    finalState (finalState s0 o1) o2 = finalState s0 o2 ∧
    finalState (finalState s0 o1) o2 = finalOf o2 ∧
    ¬((finalState (finalState s0 o1) o2).resultVisible = true ∧
      (finalState (finalState s0 o1) o2).errorVisible = true) := by
  refine ⟨by rw [finalState_eq_finalOf, finalState_eq_finalOf],
          finalState_eq_finalOf _ _, ?_⟩
  rw [finalState_eq_finalOf]
  cases h : runTry o2 <;> simp [finalOf, h]

/-- Claim C10: for every submission whose fetch resolves with a 2xx
status but a body that is not valid JSON, the exception thrown by
response.json() is caught by the top-level catch: the error region
becomes visible showing the prefix followed by the parse error's
message, and the finalization still runs (loading hidden, button
re-enabled). -/
theorem c10_parse_failure (s0 : UIState) (status : Nat) (parseMsg : String)
    (hok : okStatus status = true) :
    (finalState s0 (.resolved ⟨status, .error parseMsg⟩)).errorVisible = true ∧
    (finalState s0 (.resolved ⟨status, .error parseMsg⟩)).errorText =
      "Failed to generate report: " ++ parseMsg ∧
    (finalState s0 (.resolved ⟨status, .error parseMsg⟩)).loadingVisible = false ∧
    (finalState s0 (.resolved ⟨status, .error parseMsg⟩)).buttonDisabled = false := by
  have hrun : runTry (.resolved ⟨status, .error parseMsg⟩) = .thrown parseMsg := by
    simp [runTry, hok]
  simp [finalState_eq_finalOf, finalOf, hrun]

/-- Witness for c10_parse_failure at a concrete input. -/
theorem c10_parse_failure_witness :
    (finalState initState (.resolved ⟨200, .error "Unexpected token"⟩)).errorVisible = true ∧
    (finalState initState (.resolved ⟨200, .error "Unexpected token"⟩)).errorText =
      "Failed to generate report: Unexpected token" ∧
    (finalState initState (.resolved ⟨200, .error "Unexpected token"⟩)).loadingVisible = false ∧
    (finalState initState (.resolved ⟨200, .error "Unexpected token"⟩)).buttonDisabled = false :=
  c10_parse_failure initState 200 "Unexpected token" (by decide)
